import Mathlib

/-!
Shallow embedding of the foie-gras dashboard repository:
the pandas aggregation pass `process_data` (src/dashboard/data_processor.py),
the Flask app's cached `get_data` (src/dashboard/app.py), and the
checkpointed scraper loops (src/scrape_opentable_menus.py,
src/scrape_doordash_menus.py).

Numbers are modelled as rationals; a CSV cell that can be missing (NaN)
is an `Option`.  A menu item's `price` cell is modelled after
`pd.to_numeric(..., errors=coerce)`: `some q` when the cell coerces to
the number `q`, `none` when it is missing or not coercible.
Python `set`s are modelled as `Finset` (the code only takes `len`,
intersections and membership of them, never an iteration order).
`process_data` reads its two CSVs from disk; the embedding takes the two
tables as arguments, modelling each CSV as the list of its rows in file
order.
-/

namespace FoieGras

/-- Substring test: `needle` occurs inside `hay`
(models Python `needle in hay` / `Series.str.contains` with a plain pattern). -/
def strContains (hay needle : String) : Bool :=
  decide (needle.toList <:+: hay.toList)

/-- Python `str.lower()` (over the ASCII range, which is all the code
compares). -/
def pyLower (s : String) : String :=
  ⟨s.toList.map Char.toLower⟩

/-- Python `str.strip()`: drop whitespace from both ends. -/
def pyStrip (s : String) : String :=
  ⟨((s.toList.dropWhile Char.isWhitespace).reverse.dropWhile
      Char.isWhitespace).reverse⟩

/-- Python `round` on rationals: round half to even at integer precision. -/
def roundHalfEven (q : ℚ) : ℤ :=
  let f := ⌊q⌋
  if q - f < 1/2 then f
  else if q - f > 1/2 then f + 1
  else if f % 2 = 0 then f else f + 1

/-- Python `round(x, n)` on rationals. -/
def pyRound (n : ℕ) (q : ℚ) : ℚ :=
  (roundHalfEven (q * 10 ^ n) : ℚ) / 10 ^ n

/-- Mean of a list of rationals (`Series.mean`); 0 on the empty list,
which the code never queries. -/
def listMean (l : List ℚ) : ℚ :=
  l.sum / l.length

/-- Minimum of a list of rationals (`Series.min` on a nonempty series). -/
def listMin (l : List ℚ) : ℚ :=
  match l with
  | [] => 0
  | x :: xs => xs.foldl min x

/-- Maximum of a list of rationals (`Series.max` on a nonempty series). -/
def listMax (l : List ℚ) : ℚ :=
  match l with
  | [] => 0
  | x :: xs => xs.foldl max x

/-- Sort a list of rationals ascending (for `Series.median`). -/
def sortRat (l : List ℚ) : List ℚ :=
  l.mergeSort (fun a b => a ≤ b)

/-- `Series.median`: average of the middle elements of the sorted list. -/
def listMedian (l : List ℚ) : ℚ :=
  let s := sortRat l
  let n := s.length
  if n = 0 then 0
  else if n % 2 = 1 then s.getD (n / 2) 0
  else (s.getD (n / 2 - 1) 0 + s.getD (n / 2) 0) / 2

/-- `DataFrame.drop_duplicates` on the key `key`, keeping the first row with
each key value; `seen` accumulates the key values already kept.
With `key = id` this is also `Series.unique` as an ordered list. -/
def dropDupBy {α β : Type} [DecidableEq β] (key : α → β) : List α → List β → List α
  | [], _ => []
  | x :: xs, seen =>
      if key x ∈ seen then dropDupBy key xs seen
      else x :: dropDupBy key xs (key x :: seen)

/-- Python dict counter update `d[k] = d.get(k, 0) + 1` on an
insertion-ordered association list: a new key is appended at the end,
an existing key is updated in place. -/
def dictIncr (k : String) : List (String × ℕ) → List (String × ℕ)
  | [] => [(k, 1)]
  | (k₀, v) :: rest => if k₀ = k then (k₀, v + 1) :: rest else (k₀, v) :: dictIncr k rest

/-! ## Data model: the two CSV tables (src/dashboard/data_processor.py lines 75-76) -/

/-- A row of `restaurants_opentable.csv`, with the columns `process_data`
reads.  `restaurant_id` is the scraped OpenTable id string. -/
structure RestaurantRow where
  restaurant_id : String
  name : Option String
  city : Option String
  state : Option String
  cuisine_type : Option String
  price_band : Option String
deriving DecidableEq

/-- A row of `menu_items_opentable.csv`, with the columns `process_data`
reads.  The CSV column `section` is called `menu_section` here because
`section` is a Lean keyword.  `price` is the cell after
`pd.to_numeric(..., errors=coerce)`. -/
structure MenuRow where
  restaurant_id : String
  title : Option String
  description : Option String
  menu_section : Option String
  price : Option ℚ
deriving DecidableEq

/-- `STATE_NAMES` constant (data_processor.py lines 54-66), in dict
insertion order. -/
def STATE_NAMES : List (String × String) :=
  [("FL", "Florida"), ("PA", "Pennsylvania"), ("OH", "Ohio"),
   ("NC", "North Carolina"), ("NJ", "New Jersey"), ("WA", "Washington"),
   ("MA", "Massachusetts"), ("MD", "Maryland"), ("OR", "Oregon"),
   ("CO", "Colorado"), ("DC", "District of Columbia")]

/-- `CITY_COORDS` constant (data_processor.py lines 10-52), in dict
insertion order. -/
def CITY_COORDS : List (String × ℚ × ℚ) :=
  [("Miami", 25.7617, -80.1918), ("Orlando", 28.5383, -81.3792),
   ("Tampa", 27.9506, -82.4572), ("Philadelphia", 39.9526, -75.1652),
   ("Pittsburgh", 40.4406, -79.9959), ("Columbus", 39.9612, -82.9988),
   ("Cleveland", 41.4993, -81.6944), ("Cincinnati", 39.1031, -84.5120),
   ("Charlotte", 35.2271, -80.8431), ("Raleigh", 35.7796, -78.6382),
   ("Asheville", 35.5951, -82.5515), ("Jersey City", 40.7178, -74.0431),
   ("Newark", 40.7357, -74.1724), ("Princeton", 40.3573, -74.6672),
   ("Seattle", 47.6062, -122.3321), ("Tacoma", 47.2529, -122.4443),
   ("Spokane", 47.6588, -117.4260), ("Boston", 42.3601, -71.0589),
   ("Cambridge", 42.3736, -71.1097), ("Worcester", 42.2626, -71.8023),
   ("Baltimore", 39.2904, -76.6122), ("Bethesda", 38.9847, -77.0947),
   ("Annapolis", 38.9784, -76.4922), ("Portland", 45.5152, -122.6784),
   ("Eugene", 44.0521, -123.0868), ("Bend", 44.0582, -121.3153),
   ("Denver", 39.7392, -104.9903), ("Boulder", 40.0150, -105.2705),
   ("Colorado Springs", 38.8339, -104.8214), ("Washington", 38.9072, -77.0369)]

/-! ## Foie-gras selection (lines 78-83) -/

/-- The foie mask `menu_df[title].str.lower().str.contains(foie, na=False)`:
a missing title gives `False` (`na=False`). -/
def is_foie (m : MenuRow) : Bool :=
  match m.title with
  | some t => strContains (pyLower t) "foie"
  | none => false

/-- `foie_items = menu_df[foie_mask]`, in table order. -/
def foie_items (menu : List MenuRow) : List MenuRow :=
  menu.filter is_foie

/-- `foie_restaurant_ids = set(foie_items[restaurant_id].unique())`. -/
def foie_restaurant_ids (menu : List MenuRow) : Finset String :=
  ((foie_items menu).map (·.restaurant_id)).toFinset

/-- `foie_prices = pd.to_numeric(foie_items[price], errors=coerce).dropna()`. -/
def foie_prices (menu : List MenuRow) : List ℚ :=
  (foie_items menu).filterMap (·.price)

/-! ## Aggregate stats (lines 85-102) -/

/-- The `stats` dict built by `process_data`.  The keys that Python writes
as `None` are `Option` fields. -/
structure Stats where
  total_restaurants : ℕ
  total_menu_items : ℕ
  total_foie_gras_items : ℕ
  restaurants_with_foie : ℕ
  avg_foie_price : Option ℚ
  min_foie_price : Option ℚ
  max_foie_price : Option ℚ
  median_food_price : Option ℚ
  median_foie_price : Option ℚ
  foie_price_premium_pct : Option ℚ
  multi_offering_pct : ℚ
  avg_foie_per_restaurant : ℚ
  restaurants_with_multiple_foie : ℕ
deriving DecidableEq

/-- First `drink_keywords` list (lines 107-109), used for
`stats[median_food_price]`. -/
def drink_keywords : List String :=
  ["wine", "champagne", "whisky", "whiskey", "bourbon", "cognac",
   "scotch", "vodka", "gin", "rum", "tequila", "bottle", "glass",
   "beer", "cocktail", "martini", "sangria", "vermouth", "port"]

/-- Second `drink_keywords` list (lines 236-237), used for
`price_comparison`. -/
def drink_keywords2 : List String :=
  ["wine", "champagne", "whisky", "bourbon", "cognac", "scotch",
   "vodka", "gin", "rum", "tequila", "bottle", "beer", "cocktail"]

/-- One keyword of `|`.join(drink_keywords) matches the lowercased title.
(The keywords hold no regex metacharacters, so the regex alternation is
substring matching.) -/
def matches_any_keyword (t : String) (kws : List String) : Bool :=
  kws.any (fun kw => strContains (pyLower t) kw)

/-- `food_mask = ~menu_df[title].str.lower().str.contains(pattern, na=False)`:
a missing title row fails the `contains` (`na=False`) and so passes the
negated mask. -/
def is_food (kws : List String) (m : MenuRow) : Bool :=
  match m.title with
  | some t => ! matches_any_keyword t kws
  | none => true

/-- `food_prices` (lines 112-114 resp. 239-240): coercible prices of
food-mask rows, then kept only when `0 < p` and `p ≤ 500`. -/
def food_prices (kws : List String) (menu : List MenuRow) : List ℚ :=
  ((menu.filter (is_food kws)).filterMap (·.price)).filter
    (fun p => decide (0 < p) && decide (p ≤ 500))

/-! ## Menu-section categorization (lines 128-153) -/

/-- `section_categories` (lines 130-135), in dict insertion order. -/
def section_categories : List (String × List String) :=
  [("Appetizers/Starters",
    ["appetizer", "starter", "small plate", "first course",
     "hors d\x27oeuvre", "antipasti", "antipasto", "entree", "entrée"]),
   ("Main Courses",
    ["main", "entrees", "entrées", "second course", "plat principal", "secondi"]),
   ("Specials/Features",
    ["special", "feature", "chef", "tasting", "prix fixe", "omakase"]),
   ("Other/Uncategorized", [])]

/-- `str(item.get(section, )).lower().strip()`: Python renders a NaN cell
as the string `nan`. -/
def section_str (m : MenuRow) : String :=
  pyStrip (pyLower (match m.menu_section with | some s => s | none => "nan"))

/-- The category loop of lines 141-153: the first category (in dict order)
one of whose keywords occurs in the section string; otherwise
`Other/Uncategorized`.  (`Other/Uncategorized` has no keywords, so
skipping it in the loop is the same as letting `find?` pass over it.) -/
def categorize_section (sec : String) : String :=
  match section_categories.find? (fun ck => ck.2.any (fun kw => strContains sec kw)) with
  | some ck => ck.1
  | none => "Other/Uncategorized"

/-- `foie_by_section` (lines 137-153) as an insertion-ordered counter dict. -/
def foie_by_section (menu : List MenuRow) : List (String × ℕ) :=
  (foie_items menu).foldl (fun d m => dictIncr (categorize_section (section_str m)) d) []

/-! ## State aggregates (lines 155-170 and 322-328) -/

/-- A `state_data` entry before the `foie_rate` key is added (lines 162-167). -/
structure StateEntryBase where
  state : String
  state_name : String
  restaurant_count : ℕ
  restaurants_with_foie : ℕ
deriving DecidableEq

/-- A `state_data` entry after lines 324-328 added `foie_rate`. -/
structure StateEntry where
  state : String
  state_name : String
  restaurant_count : ℕ
  restaurants_with_foie : ℕ
  foie_rate : ℚ
deriving DecidableEq

/-- The loop of lines 157-167, one entry per `STATE_NAMES` item. -/
def state_data_unsorted (rest : List RestaurantRow) (menu : List MenuRow) :
    List StateEntryBase :=
  STATE_NAMES.map (fun sn =>
    let srows := rest.filter (fun r => r.state = some sn.1)
    let sids : Finset String := (srows.map (·.restaurant_id)).toFinset
    { state := sn.1, state_name := sn.2,
      restaurant_count := srows.length,
      restaurants_with_foie := (sids ∩ foie_restaurant_ids menu).card })

/-- Lines 324-328: attach `foie_rate` to a state entry. -/
def add_foie_rate (e : StateEntryBase) : StateEntry :=
  { state := e.state, state_name := e.state_name,
    restaurant_count := e.restaurant_count,
    restaurants_with_foie := e.restaurants_with_foie,
    foie_rate :=
      if e.restaurant_count > 0 then
        pyRound 1 ((e.restaurants_with_foie : ℚ) / e.restaurant_count * 100)
      else 0 }

/-- `state_data` as returned: sorted by `restaurant_count` descending
(line 170; Python `sorted` with `reverse=True` is stable, as is
`mergeSort`), then with `foie_rate` attached (lines 324-328; the rate is
attached after sorting in the source, but sorting does not read it). -/
def state_data (rest : List RestaurantRow) (menu : List MenuRow) : List StateEntry :=
  ((state_data_unsorted rest menu).mergeSort
    (fun a b => decide (b.restaurant_count ≤ a.restaurant_count))).map add_foie_rate

/-! ## City map data (lines 172-193) -/

/-- A `city_data` entry (lines 186-193). -/
structure CityEntry where
  city : String
  lat : ℚ
  lng : ℚ
  restaurant_count : ℕ
  foie_gras_items : ℕ
  restaurants_with_foie : ℕ
deriving DecidableEq

/-- The loop of lines 174-193: one entry per `CITY_COORDS` city that
matches at least one restaurant row (case-insensitive city match;
a missing city cell matches nothing). -/
def city_data (rest : List RestaurantRow) (menu : List MenuRow) : List CityEntry :=
  CITY_COORDS.filterMap (fun c =>
    let crows := rest.filter (fun r =>
      match r.city with
      | some s => pyLower s = pyLower c.1
      | none => false)
    let cids : Finset String := (crows.map (·.restaurant_id)).toFinset
    if crows.length > 0 then
      some { city := c.1, lat := c.2.1, lng := c.2.2,
             restaurant_count := crows.length,
             foie_gras_items :=
               ((foie_items menu).filter (fun m => m.restaurant_id ∈ cids)).length,
             restaurants_with_foie := (cids ∩ foie_restaurant_ids menu).card }
    else none)

/-! ## Value counts (lines 195-199) -/

/-- `Series.value_counts().to_dict()`: distinct non-missing values with their
multiplicities, sorted by count descending (stable on first appearance). -/
def value_counts (l : List (Option String)) : List (String × ℕ) :=
  let vs := l.filterMap id
  ((dropDupBy id vs []).map (fun v => (v, vs.count v))).mergeSort
    (fun a b => decide (b.2 ≤ a.2))

/-- `cuisine_counts` (line 196): top ten cuisine values. -/
def cuisine_counts (rest : List RestaurantRow) : List (String × ℕ) :=
  (value_counts (rest.map (·.cuisine_type))).take 10

/-- `price_band_counts` (line 199). -/
def price_band_counts (rest : List RestaurantRow) : List (String × ℕ) :=
  value_counts (rest.map (·.price_band))

/-! ## Price tier foie prevalence (lines 201-213) -/

/-- A `price_tier_foie` value (lines 209-213). -/
structure TierEntry where
  total : ℕ
  with_foie : ℕ
  rate : ℚ
deriving DecidableEq

/-- `tier_order` (line 203). -/
def tier_order : List String :=
  ["$30 and under", "$31 to $50", "$50 and over"]

/-- `band_ids`: distinct restaurant ids of rows in the price band. -/
def band_ids (rest : List RestaurantRow) (band : String) : Finset String :=
  ((rest.filter (fun r => r.price_band = some band)).map (·.restaurant_id)).toFinset

/-- The loop of lines 204-213: an entry per band of `tier_order` having at
least one restaurant id, keyed in tier order. -/
def price_tier_foie (rest : List RestaurantRow) (menu : List MenuRow) :
    List (String × TierEntry) :=
  tier_order.filterMap (fun band =>
    let bids := band_ids rest band
    let bfoie := bids ∩ foie_restaurant_ids menu
    if bids.card > 0 then
      some (band,
        { total := bids.card, with_foie := bfoie.card,
          rate := pyRound 1 ((bfoie.card : ℚ) / bids.card * 100) })
    else none)

/-! ## Cuisines of foie restaurants (lines 215-223) -/

/-- `cuisine.split(,)[0].strip()` (line 220). -/
def primary_cuisine (c : String) : String :=
  pyStrip ⟨c.toList.takeWhile (fun ch => ch ≠ ',')⟩

/-- `foie_restaurants` (line 216): restaurant rows whose id has a foie item. -/
def foie_restaurants (rest : List RestaurantRow) (menu : List MenuRow) :
    List RestaurantRow :=
  rest.filter (fun r => r.restaurant_id ∈ foie_restaurant_ids menu)

/-- `foie_cuisines` (lines 217-223): per-primary-cuisine counts over
non-missing cuisines of foie restaurants, sorted by count descending
(stable on insertion order, like Python `sorted`). -/
def foie_cuisines (rest : List RestaurantRow) (menu : List MenuRow) :
    List (String × ℕ) :=
  (((foie_restaurants rest menu).filterMap (·.cuisine_type)).foldl
      (fun d c => dictIncr (primary_cuisine c) d) []).mergeSort
    (fun a b => decide (b.2 ≤ a.2))

/-! ## Origin mentions (lines 225-232) -/

/-- The `origin_data` dict; key `Hudson Valley` is `hudson_valley`, key
`No origin specified` is `no_origin`. -/
structure OriginData where
  hudson_valley : ℕ
  no_origin : ℕ
deriving DecidableEq

/-- `str(item.get(title, )).lower() + space + str(item.get(description, )).lower()`
(line 228); Python renders a NaN cell as `nan`. -/
def title_desc (m : MenuRow) : String :=
  pyLower (match m.title with | some t => t | none => "nan") ++ " " ++
  pyLower (match m.description with | some d => d | none => "nan")

/-- Line 229's test: `hudson in title_desc or hudson valley in title_desc`. -/
def mentions_hudson (m : MenuRow) : Bool :=
  strContains (title_desc m) "hudson" || strContains (title_desc m) "hudson valley"

/-- `origin_data` (lines 226-232). -/
def origin_data (menu : List MenuRow) : OriginData :=
  { hudson_valley := ((foie_items menu).filter mentions_hudson).length,
    no_origin := ((foie_items menu).filter (fun m => ! mentions_hudson m)).length }

/-! ## Price comparison (lines 234-247) -/

/-- The `price_comparison` dict (lines 242-247). -/
structure PriceComparison where
  foie_gras_median : Option ℚ
  foie_gras_mean : Option ℚ
  all_food_median : Option ℚ
  premium_pct : Option ℚ
deriving DecidableEq

/-- `price_comparison` (lines 242-247), over the second, shorter drink
keyword list. -/
def price_comparison (menu : List MenuRow) : PriceComparison :=
  let fp := foie_prices menu
  let foodp := food_prices drink_keywords2 menu
  { foie_gras_median := if fp.length > 0 then some (pyRound 2 (listMedian fp)) else none,
    foie_gras_mean := if fp.length > 0 then some (pyRound 2 (listMean fp)) else none,
    all_food_median := if foodp.length > 0 then some (pyRound 2 (listMedian foodp)) else none,
    premium_pct :=
      if fp.length > 0 ∧ foodp.length > 0 then
        some (pyRound 1 ((listMedian fp - listMedian foodp) / listMedian foodp * 100))
      else none }

/-! ## Foie price distribution (lines 249-255) -/

/-- The `foie_price_dist` dict; Python keys `under_15`, `15_to_25`,
`25_to_35`, `35_plus` are `under_15`, `from_15_to_25`, `from_25_to_35`,
`plus_35` (a Lean field cannot start with a digit). -/
structure PriceDist where
  under_15 : ℕ
  from_15_to_25 : ℕ
  from_25_to_35 : ℕ
  plus_35 : ℕ
deriving DecidableEq

/-- `foie_price_dist` (lines 250-255). -/
def foie_price_dist (menu : List MenuRow) : PriceDist :=
  let fp := foie_prices menu
  { under_15 := (fp.filter (fun p => decide (p < 15))).length,
    from_15_to_25 := (fp.filter (fun p => decide (15 ≤ p) && decide (p < 25))).length,
    from_25_to_35 := (fp.filter (fun p => decide (25 ≤ p) && decide (p < 35))).length,
    plus_35 := (fp.filter (fun p => decide (35 ≤ p))).length }

/-! ## Sample foie items (lines 257-286) -/

/-- A row of `foie_with_details = foie_items.merge(restaurants_df[...],
on=restaurant_id, how=left)` (lines 260-264): the menu columns plus the
four merged restaurant columns, which are missing when no restaurant row
matched. -/
structure MergedRow where
  restaurant_id : String
  title : Option String
  description : Option String
  menu_section : Option String
  price : Option ℚ
  name : Option String
  city : Option String
  state : Option String
  price_band : Option String
deriving DecidableEq

/-- The left merge of lines 260-264: each foie item joined with every
restaurant row of the same id in table order; an unmatched item keeps
missing restaurant columns. -/
def foie_with_details (rest : List RestaurantRow) (menu : List MenuRow) :
    List MergedRow :=
  (foie_items menu).flatMap (fun m =>
    let hits := rest.filter (fun r => r.restaurant_id = m.restaurant_id)
    if hits.isEmpty then
      [{ restaurant_id := m.restaurant_id, title := m.title,
         description := m.description, menu_section := m.menu_section,
         price := m.price, name := none, city := none, state := none,
         price_band := none }]
    else
      hits.map (fun r =>
        { restaurant_id := m.restaurant_id, title := m.title,
          description := m.description, menu_section := m.menu_section,
          price := m.price, name := r.name, city := r.city, state := r.state,
          price_band := r.price_band }))

/-- The `dedup_key` of line 269:
`title.str.lower() + underscore + restaurant_id.astype(str)`.
(Foie rows always carry a title; the `nan` branch mirrors Python's
rendering of a missing one.) -/
def dedup_key (m : MergedRow) : String :=
  (match m.title with | some t => pyLower t | none => "nan") ++ "_" ++ m.restaurant_id

/-- Line 273's predicate: a non-missing, non-empty description. -/
def has_desc (m : MergedRow) : Bool :=
  match m.description with
  | some d => d ≠ ""
  | none => false

/-- Lines 266-277: keep rows with a price, drop duplicate `dedup_key`s
keeping the first, put rows with a description first (`pd.concat`), and
take the first ten. -/
def sample_rows (rest : List RestaurantRow) (menu : List MenuRow) :
    List MergedRow :=
  let withPrices := (foie_with_details rest menu).filter (·.price.isSome)
  let deduped := dropDupBy dedup_key withPrices []
  ((deduped.filter has_desc) ++ (deduped.filter (fun m => ! has_desc m))).take 10

/-- A `sample_foie_items` entry (lines 278-286).  A field built with
`item.get(...)` on a missing cell carries Python's NaN, modelled `none`. -/
structure SampleEntry where
  title : Option String
  description : String
  price : Option ℚ
  restaurant : Option String
  city : Option String
  state : Option String
  menu_section : Option String
deriving DecidableEq

/-- Lines 278-286: render a sample row for display; the description is
truncated to 200 characters and replaced by the empty string when missing. -/
def sample_entry (m : MergedRow) : SampleEntry :=
  { title := m.title,
    description := match m.description with | some d => d.take 200 | none => "",
    price := m.price,
    restaurant := m.name, city := m.city, state := m.state,
    menu_section := m.menu_section }

/-- `sample_foie_items` (lines 257-286). -/
def sample_foie_items (rest : List RestaurantRow) (menu : List MenuRow) :
    List SampleEntry :=
  (sample_rows rest menu).map sample_entry

/-! ## Multiple offerings (lines 288-293) -/

/-- `foie_items.groupby(restaurant_id).size()` (line 290): the foie-item
count of each distinct restaurant id.  (`groupby` sorts its keys; only
the multiset of counts is read, so the order below is immaterial.) -/
def foie_per_restaurant (menu : List MenuRow) : List ℕ :=
  (dropDupBy id ((foie_items menu).map (·.restaurant_id)) []).map
    (fun i => ((foie_items menu).filter (fun m => m.restaurant_id = i)).length)

/-- Line 291: restaurants with more than one foie item. -/
def restaurants_with_multiple (menu : List MenuRow) : ℕ :=
  ((foie_per_restaurant menu).filter (fun n => decide (n > 1))).length

/-- Line 292. -/
def multi_offering_pct (menu : List MenuRow) : ℚ :=
  if (foie_restaurant_ids menu).card > 0 then
    pyRound 1 ((restaurants_with_multiple menu : ℚ) / (foie_restaurant_ids menu).card * 100)
  else 0

/-- Line 293. -/
def avg_foie_per_restaurant (menu : List MenuRow) : ℚ :=
  if (foie_per_restaurant menu).length > 0 then
    pyRound 1 (listMean ((foie_per_restaurant menu).map (fun n => (n : ℚ))))
  else 0

/-! ## European insight (lines 295-320) -/

/-- `european_keywords` (line 297). -/
def european_keywords : List String :=
  ["french", "italian", "european", "mediterranean", "spanish", "greek"]

/-- Line 303's test: some keyword occurs in the lowercased cuisine. -/
def is_european (c : String) : Bool :=
  european_keywords.any (fun kw => strContains (pyLower c) kw)

/-- The `european_insight` dict (lines 315-320). -/
structure EuropeanInsight where
  foie_count : ℕ
  foie_pct : ℚ
  total_count : ℕ
  total_pct : ℚ
deriving DecidableEq

/-- `european_insight` (lines 295-320). -/
def european_insight (rest : List RestaurantRow) (menu : List MenuRow) :
    EuropeanInsight :=
  let foieCount := (((foie_restaurants rest menu).filterMap (·.cuisine_type)).filter
    is_european).length
  let totalCount := ((rest.filterMap (·.cuisine_type)).filter is_european).length
  { foie_count := foieCount,
    foie_pct :=
      if (foie_restaurant_ids menu).card > 0 then
        pyRound 1 ((foieCount : ℚ) / (foie_restaurant_ids menu).card * 100)
      else 0,
    total_count := totalCount,
    total_pct :=
      if rest.length > 0 then pyRound 1 ((totalCount : ℚ) / rest.length * 100)
      else 0 }

/-! ## The full aggregate (lines 85-349) -/

/-- The `stats` dict (lines 86-126 and 330-333). -/
def stats (rest : List RestaurantRow) (menu : List MenuRow) : Stats :=
  let fp := foie_prices menu
  let foodp := food_prices drink_keywords menu
  { total_restaurants := rest.length,
    total_menu_items := menu.length,
    total_foie_gras_items := (foie_items menu).length,
    restaurants_with_foie := (foie_restaurant_ids menu).card,
    avg_foie_price := if fp.length > 0 then some (pyRound 2 (listMean fp)) else none,
    min_foie_price := if fp.length > 0 then some (pyRound 2 (listMin fp)) else none,
    max_foie_price := if fp.length > 0 then some (pyRound 2 (listMax fp)) else none,
    median_food_price :=
      if foodp.length > 0 ∧ fp.length > 0 then some (pyRound 2 (listMedian foodp))
      else none,
    median_foie_price :=
      if foodp.length > 0 ∧ fp.length > 0 then some (pyRound 2 (listMedian fp))
      else none,
    foie_price_premium_pct :=
      if foodp.length > 0 ∧ fp.length > 0 then
        some (pyRound 1 ((listMedian fp - listMedian foodp) / listMedian foodp * 100))
      else none,
    multi_offering_pct := multi_offering_pct menu,
    avg_foie_per_restaurant := avg_foie_per_restaurant menu,
    restaurants_with_multiple_foie := restaurants_with_multiple menu }

/-- The dict returned by `process_data` (lines 335-349). -/
structure Aggregate where
  stats : Stats
  states : List StateEntry
  cities : List CityEntry
  cuisines : List (String × ℕ)
  price_bands : List (String × ℕ)
  foie_sections : List (String × ℕ)
  price_tier_foie : List (String × TierEntry)
  foie_cuisines : List (String × ℕ)
  origin_data : OriginData
  price_comparison : PriceComparison
  foie_price_dist : PriceDist
  sample_foie_items : List SampleEntry
  european_insight : EuropeanInsight
deriving DecidableEq

/-- `process_data` (lines 69-349), as a function of the two loaded tables. -/
def process_data (rest : List RestaurantRow) (menu : List MenuRow) : Aggregate :=
  { stats := stats rest menu,
    states := state_data rest menu,
    cities := city_data rest menu,
    cuisines := cuisine_counts rest,
    price_bands := price_band_counts rest,
    foie_sections := foie_by_section menu,
    price_tier_foie := price_tier_foie rest menu,
    foie_cuisines := foie_cuisines rest menu,
    origin_data := origin_data menu,
    price_comparison := price_comparison menu,
    foie_price_dist := foie_price_dist menu,
    sample_foie_items := sample_foie_items rest menu,
    european_insight := european_insight rest menu }

/-! ## The Flask app (src/dashboard/app.py)

`get_data` lazily fills the module global `dashboard_data`: from
`dashboard/data.json` when that file exists, else by calling
`process_data()` on the CSVs.  Each route answers with one key of the
aggregate.  The embedding threads the global through a request sequence
and counts file loads and `process_data` calls. -/

/-- The routes of app.py (the page route plus every `/api/*` route). -/
inductive Route
  | index | stats | cities | states | cuisines | price_bands | foie_sections
  | price_tier_foie | foie_cuisines | origin_data | price_comparison
  | foie_price_dist | sample_foie_items | european_insight
deriving DecidableEq

/-- A served response body: the aggregate component the route jsonifies
(`page` is the rendered index page, a function of `stats`). -/
inductive Response
  | page (s : Stats)
  | stats (s : Stats)
  | cities (l : List CityEntry)
  | states (l : List StateEntry)
  | counts (l : List (String × ℕ))
  | tiers (l : List (String × TierEntry))
  | origin (o : OriginData)
  | price_cmp (p : PriceComparison)
  | dist (d : PriceDist)
  | samples (l : List SampleEntry)
  | euro (e : EuropeanInsight)
deriving DecidableEq

/-- Which key of the aggregate each route serves (app.py lines 28-123). -/
def route_answer (r : Route) (d : Aggregate) : Response :=
  match r with
  | .index => .page d.stats
  | .stats => .stats d.stats
  | .cities => .cities d.cities
  | .states => .states d.states
  | .cuisines => .counts d.cuisines
  | .price_bands => .counts d.price_bands
  | .foie_sections => .counts d.foie_sections
  | .price_tier_foie => .tiers d.price_tier_foie
  | .foie_cuisines => .counts d.foie_cuisines
  | .origin_data => .origin d.origin_data
  | .price_comparison => .price_cmp d.price_comparison
  | .foie_price_dist => .dist d.foie_price_dist
  | .sample_foie_items => .samples d.sample_foie_items
  | .european_insight => .euro d.european_insight

/-- The app's environment: the contents of `dashboard/data.json` (`none`
when the file does not exist) and the two CSV tables `process_data`
would read. -/
structure AppEnv where
  data_json : Option Aggregate
  rest_csv : List RestaurantRow
  menu_csv : List MenuRow

/-- The app's mutable state: the `dashboard_data` global, plus audit
counters for `json.load` executions and `process_data` calls. -/
structure AppState where
  cache : Option Aggregate
  file_loads : ℕ
  process_calls : ℕ
deriving DecidableEq

/-- `dashboard_data = None` at startup (app.py line 12). -/
def app_init : AppState :=
  { cache := none, file_loads := 0, process_calls := 0 }

/-- `get_data` (app.py lines 14-25). -/
def get_data (env : AppEnv) (s : AppState) : Aggregate × AppState :=
  match s.cache with
  | some d => (d, s)
  | none =>
    match env.data_json with
    | some d =>
        (d, { cache := some d, file_loads := s.file_loads + 1,
              process_calls := s.process_calls })
    | none =>
        let d := process_data env.rest_csv env.menu_csv
        (d, { cache := some d, file_loads := s.file_loads,
              process_calls := s.process_calls + 1 })

/-- Serving one request: `get_data` then the route's key. -/
def serve (env : AppEnv) (s : AppState) (r : Route) : Response × AppState :=
  let (d, s') := get_data env s
  (route_answer r d, s')

/-- Serving a request sequence from startup, collecting the responses. -/
def app_run (env : AppEnv) (rs : List Route) : List Response × AppState :=
  rs.foldl (fun acc r =>
    let (resp, s') := serve env acc.2 r
    (acc.1 ++ [resp], s')) ([], app_init)

/-! ## The OpenTable scraper loop (src/scrape_opentable_menus.py)

Record contents never steer the loop, so the scraped restaurant and
menu-item record types are parameters `α` and `β`.  The external world
(Google search results, the OpenTable actor) is an oracle structure. -/

/-- `TARGET_COUNTS` (scrape_opentable_menus.py lines 23-65), in dict
insertion order. -/
def TARGET_COUNTS : List ((String × String) × ℕ) :=
  [(("Miami", "FL"), 43), (("Orlando", "FL"), 32), (("Tampa", "FL"), 32),
   (("Philadelphia", "PA"), 40), (("Pittsburgh", "PA"), 30),
   (("Columbus", "OH"), 20), (("Cleveland", "OH"), 20), (("Cincinnati", "OH"), 20),
   (("Charlotte", "NC"), 25), (("Raleigh", "NC"), 25), (("Asheville", "NC"), 10),
   (("Jersey City", "NJ"), 15), (("Newark", "NJ"), 10), (("Princeton", "NJ"), 10),
   (("Seattle", "WA"), 25), (("Tacoma", "WA"), 5), (("Spokane", "WA"), 5),
   (("Boston", "MA"), 20), (("Cambridge", "MA"), 5), (("Worcester", "MA"), 5),
   (("Baltimore", "MD"), 15), (("Bethesda", "MD"), 10), (("Annapolis", "MD"), 5),
   (("Portland", "OR"), 20), (("Eugene", "OR"), 4), (("Bend", "OR"), 4),
   (("Denver", "CO"), 18), (("Boulder", "CO"), 4), (("Colorado Springs", "CO"), 3),
   (("Washington", "DC"), 20)]

/-- The checkpoint file's JSON shape (`opentable_progress.json`). -/
structure OTProgress (α β : Type) where
  completed_cities : List (String × String)
  restaurant_urls : List ((String × String) × List String)
  restaurants : List α
  menu_items : List β
deriving DecidableEq

/-- `load_progress` (lines 73-78): the parsed checkpoint file when it
exists, else the empty progress dict of line 78. -/
def load_progress {α β : Type} (file : Option (OTProgress α β)) : OTProgress α β :=
  match file with
  | some p => p
  | none =>
      { completed_cities := [], restaurant_urls := [],
        restaurants := [], menu_items := [] }

/-- The scraper's external world: what `search_opentable_urls` and
`scrape_restaurant_menus` would return for a city. -/
structure OTEnv (α β : Type) where
  search_urls : String → String → ℕ → List String
  scrape : List String → String → String → List α × List β

/-- The loop state of `main` (lines 240-291): the in-memory lists, the
persisted CSV contents, and audit lists of the cities for which a search
resp. scrape call was issued. -/
structure OTState (α β : Type) where
  completed : List (String × String)
  restaurants : List α
  menu_items : List β
  csv_restaurants : List α
  csv_menu_items : List β
  searches : List (String × String)
  scrapes : List (String × String)
deriving DecidableEq

/-- The state entering the loop (lines 240-244).  The CSVs on disk hold
what the previous run last wrote, which is the checkpoint's record lists
(lines 279-286 save both together). -/
def ot_init {α β : Type} (p : OTProgress α β) : OTState α β :=
  { completed := p.completed_cities,
    restaurants := p.restaurants, menu_items := p.menu_items,
    csv_restaurants := p.restaurants, csv_menu_items := p.menu_items,
    searches := [], scrapes := [] }

/-- One iteration of the `for (city, state), target in TARGET_COUNTS`
loop (lines 251-291): skip a completed city; otherwise search, and when
urls were found scrape, and when restaurants came back extend the lists,
mark the city completed and rewrite both CSVs from the full lists. -/
def ot_step {α β : Type} (env : OTEnv α β) (s : OTState α β)
    (ct : (String × String) × ℕ) : OTState α β :=
  if ct.1 ∈ s.completed then s
  else if (env.search_urls ct.1.1 ct.1.2 ct.2).isEmpty then
    { s with searches := s.searches ++ [ct.1] }
  else if (env.scrape (env.search_urls ct.1.1 ct.1.2 ct.2) ct.1.1 ct.1.2).1.isEmpty then
    { s with searches := s.searches ++ [ct.1], scrapes := s.scrapes ++ [ct.1] }
  else
    { completed := s.completed ++ [ct.1],
      restaurants := s.restaurants
        ++ (env.scrape (env.search_urls ct.1.1 ct.1.2 ct.2) ct.1.1 ct.1.2).1,
      menu_items := s.menu_items
        ++ (env.scrape (env.search_urls ct.1.1 ct.1.2 ct.2) ct.1.1 ct.1.2).2,
      csv_restaurants := s.restaurants
        ++ (env.scrape (env.search_urls ct.1.1 ct.1.2 ct.2) ct.1.1 ct.1.2).1,
      csv_menu_items := s.menu_items
        ++ (env.scrape (env.search_urls ct.1.1 ct.1.2 ct.2) ct.1.1 ct.1.2).2,
      searches := s.searches ++ [ct.1],
      scrapes := s.scrapes ++ [ct.1] }

/-- The whole loop of `main` over `TARGET_COUNTS`, from a loaded
checkpoint. -/
def ot_run {α β : Type} (env : OTEnv α β) (p : OTProgress α β) : OTState α β :=
  TARGET_COUNTS.foldl (ot_step env) (ot_init p)

/-! ## The DoorDash scraper loop (src/scrape_doordash_menus.py lines 154-227) -/

/-- The DoorDash world: `scrape_city` returns, per restaurant found, its
restaurant record together with its menu records (the loop of lines
184-213 flattens them in that order). -/
structure DDEnv (α β : Type) where
  scrape_city : String → String → ℕ → List (α × List β)

/-- The DoorDash loop state: in-memory lists, the restaurants CSV and the
menus JSON contents. -/
structure DDState (α β : Type) where
  completed : List (String × String)
  restaurants : List α
  menus : List β
  csv_restaurants : List α
  json_menus : List β
deriving DecidableEq

/-- One iteration of the DoorDash city loop (lines 172-227): skip a
completed city; otherwise scrape, append the extracted records, mark the
city completed and rewrite both outputs from the full lists
(unconditionally, even for an empty scrape). -/
def dd_step {α β : Type} (env : DDEnv α β) (s : DDState α β)
    (ct : (String × String) × ℕ) : DDState α β :=
  if ct.1 ∈ s.completed then s
  else
    let items := env.scrape_city ct.1.1 ct.1.2 ct.2
    let rs := items.map (·.1)
    let ms := items.flatMap (·.2)
    { completed := s.completed ++ [ct.1],
      restaurants := s.restaurants ++ rs,
      menus := s.menus ++ ms,
      csv_restaurants := s.restaurants ++ rs,
      json_menus := s.menus ++ ms }

/-! ## Concrete rows for witnesses -/

/-- A foie-gras menu row with a price and a description. -/
def mrow1 : MenuRow :=
  { restaurant_id := "r1", title := some "Seared Foie Gras",
    description := some "with brioche", menu_section := some "Appetizers",
    price := some 24 }

/-- A non-foie menu row. -/
def mrow2 : MenuRow :=
  { restaurant_id := "r2", title := some "Burger",
    description := none, menu_section := none, price := some 15 }

/-- A foie-gras menu row without a coercible price. -/
def mrow3 : MenuRow :=
  { restaurant_id := "r1", title := some "Foie gras torchon",
    description := none, menu_section := some "Starters", price := none }

/-- A restaurant row matching `mrow1` and `mrow3`. -/
def rrow1 : RestaurantRow :=
  { restaurant_id := "r1", name := some "Chez Test", city := some "Miami",
    state := some "FL", cuisine_type := some "French",
    price_band := some "$50 and over" }

/-- A restaurant row matching `mrow2`. -/
def rrow2 : RestaurantRow :=
  { restaurant_id := "r2", name := some "Diner", city := some "Tampa",
    state := some "FL", cuisine_type := some "American",
    price_band := some "$30 and under" }

/-- A scraper world that finds nothing (for witnesses). -/
def ot_env_triv : OTEnv Unit Unit :=
  { search_urls := fun _ _ _ => [], scrape := fun _ _ _ => ([], []) }

/-- A checkpoint with one completed city (for witnesses). -/
def ot_progress_w : OTProgress Unit Unit :=
  { completed_cities := [("Miami", "FL")], restaurant_urls := [],
    restaurants := [], menu_items := [] }

/-- An OpenTable loop state with empty, in-sync outputs (for witnesses). -/
def ot_state_w : OTState Unit Unit :=
  { completed := [], restaurants := [], menu_items := [],
    csv_restaurants := [], csv_menu_items := [], searches := [], scrapes := [] }

/-- A DoorDash world that finds nothing (for witnesses). -/
def dd_env_triv : DDEnv Unit Unit :=
  { scrape_city := fun _ _ _ => [] }

/-- A DoorDash loop state with empty, in-sync outputs (for witnesses). -/
def dd_state_w : DDState Unit Unit :=
  { completed := [], restaurants := [], menus := [],
    csv_restaurants := [], json_menus := [] }

/-- An app environment whose `data.json` exists (for witnesses). -/
def app_env_w : AppEnv :=
  { data_json := some (process_data [rrow1] [mrow1]),
    rest_csv := [], menu_csv := [] }

/-! ## Helper lemmas -/

/-- The four price buckets of lines 250-255 partition any price list. -/
theorem bucket_partition (l : List ℚ) :
    (l.filter (fun p => decide (p < 15))).length
      + (l.filter (fun p => decide (15 ≤ p) && decide (p < 25))).length
      + (l.filter (fun p => decide (25 ≤ p) && decide (p < 35))).length
      + (l.filter (fun p => decide (35 ≤ p))).length
      = l.length := by
  induction l with
  | nil => rfl
  | cons x xs ih =>
    simp only [List.filter_cons]
    rcases lt_or_le x 15 with h1 | h1
    · have h2 : ¬ (15 : ℚ) ≤ x := not_le.2 h1
      have h3 : ¬ (25 : ℚ) ≤ x := not_le.2 (h1.trans_le (by norm_num))
      have h4 : ¬ (35 : ℚ) ≤ x := not_le.2 (h1.trans_le (by norm_num))
      simp [h1, h2, h3, h4]
      omega
    · rcases lt_or_le x 25 with h2 | h2
      · have h0 : ¬ x < (15 : ℚ) := not_lt.2 h1
        have h3 : ¬ (25 : ℚ) ≤ x := not_le.2 h2
        have h4 : ¬ (35 : ℚ) ≤ x := not_le.2 (h2.trans_le (by norm_num))
        simp [h0, h1, h2, h3, h4]
        omega
      · rcases lt_or_le x 35 with h3 | h3
        · have h0 : ¬ x < (15 : ℚ) := not_lt.2 h1
          have hn2 : ¬ x < (25 : ℚ) := not_lt.2 h2
          have h4 : ¬ (35 : ℚ) ≤ x := not_le.2 h3
          simp [h0, h1, h2, h3, hn2, h4]
          omega
        · have h0 : ¬ x < (15 : ℚ) := not_lt.2 h1
          have hn2 : ¬ x < (25 : ℚ) := not_lt.2 h2
          have hn3 : ¬ x < (35 : ℚ) := not_lt.2 h3
          simp [h0, h1, h2, h3, hn2, hn3]
          omega

/-- Deduplicating preserves the `toFinset`. -/
theorem dedup_toFinset {α : Type} [DecidableEq α] (l : List α) :
    l.dedup.toFinset = l.toFinset := by
  ext a
  simp [List.mem_toFinset, List.mem_dedup]

/-! ## Claim theorems -/

/-- C8: `process_data` is stateless and deterministic — it is a function
of the two loaded tables alone (there is no other input in the
embedding), so two runs over identical tables return identical
aggregates, with all list orders included in the equality. -/
theorem process_data_deterministic (r₁ : List RestaurantRow) (m₁ : List MenuRow)
    (r₂ : List RestaurantRow) (m₂ : List MenuRow)
    (h₁ : r₁ = r₂) (h₂ : m₁ = m₂) :
    process_data r₁ m₁ = process_data r₂ m₂ := by
  subst h₁
  subst h₂
  rfl

/-- Witness for C8 at concrete tables. -/
theorem process_data_deterministic_witness :
    ([rrow1] : List RestaurantRow) = [rrow1] ∧
    process_data [rrow1] [mrow1] = process_data [rrow1] [mrow1] :=
  ⟨rfl, process_data_deterministic [rrow1] [mrow1] [rrow1] [mrow1] rfl rfl⟩

/-- C9: the four buckets of `foie_price_dist` are pairwise disjoint and
exhaustive over the numeric foie prices: their counts sum to the number
of coercible foie-gras prices, on every input. -/
theorem foie_price_dist_partition (rest : List RestaurantRow) (menu : List MenuRow) :
    (process_data rest menu).foie_price_dist.under_15
      + (process_data rest menu).foie_price_dist.from_15_to_25
      + (process_data rest menu).foie_price_dist.from_25_to_35
      + (process_data rest menu).foie_price_dist.plus_35
      = (foie_prices menu).length := by
  show (foie_price_dist menu).under_15 + (foie_price_dist menu).from_15_to_25
      + (foie_price_dist menu).from_25_to_35 + (foie_price_dist menu).plus_35
      = (foie_prices menu).length
  exact bucket_partition (foie_prices menu)

/-- C2: a menu row is a foie-gras item exactly when its title is present
and its lowercased title contains `foie`; `total_foie_gras_items` counts
exactly those rows and `restaurants_with_foie` their distinct
`restaurant_id` values. -/
theorem foie_item_characterization (rest : List RestaurantRow) (menu : List MenuRow) :
    (∀ m ∈ menu, (is_foie m = true ↔
        ∃ t, m.title = some t ∧ strContains (pyLower t) "foie" = true)) ∧
    (process_data rest menu).stats.total_foie_gras_items
      = (menu.filter is_foie).length ∧
    (process_data rest menu).stats.restaurants_with_foie
      = ((menu.filter is_foie).map (fun m => m.restaurant_id)).dedup.length := by
  refine ⟨?_, rfl, ?_⟩
  · intro m _
    cases h : m.title with
    | none => simp [is_foie, h]
    | some t => simp [is_foie, h]
  · show (foie_restaurant_ids menu).card = _
    exact List.card_toFinset _

/-- Witness for C2: the characterization instantiated at `mrow1`, plus
the counts at a concrete table. -/
theorem foie_item_characterization_witness :
    mrow1 ∈ [mrow1, mrow2] ∧
    (is_foie mrow1 = true ↔
      ∃ t, mrow1.title = some t ∧ strContains (pyLower t) "foie" = true) :=
  ⟨by simp, (foie_item_characterization [rrow1] [mrow1, mrow2]).1 mrow1 (by simp)⟩

/-- C4: the three foie price stats are `None` exactly when no foie-gras
item has a coercible price; otherwise they are the rounded mean, min and
max of the coercible foie-gras prices. -/
theorem foie_price_stats_spec (rest : List RestaurantRow) (menu : List MenuRow) :
    (((process_data rest menu).stats.avg_foie_price = none ∧
      (process_data rest menu).stats.min_foie_price = none ∧
      (process_data rest menu).stats.max_foie_price = none) ↔
        ∀ m ∈ foie_items menu, m.price = none) ∧
    ((∃ m ∈ foie_items menu, m.price ≠ none) →
      (process_data rest menu).stats.avg_foie_price
        = some (pyRound 2 (listMean (foie_prices menu))) ∧
      (process_data rest menu).stats.min_foie_price
        = some (pyRound 2 (listMin (foie_prices menu))) ∧
      (process_data rest menu).stats.max_foie_price
        = some (pyRound 2 (listMax (foie_prices menu)))) := by
  have hnil : foie_prices menu = [] ↔ ∀ m ∈ foie_items menu, m.price = none :=
    List.filterMap_eq_nil_iff (f := fun m : MenuRow => m.price) (l := foie_items menu)
  have havg : (process_data rest menu).stats.avg_foie_price
      = if (foie_prices menu).length > 0 then some (pyRound 2 (listMean (foie_prices menu)))
        else none := rfl
  have hmin : (process_data rest menu).stats.min_foie_price
      = if (foie_prices menu).length > 0 then some (pyRound 2 (listMin (foie_prices menu)))
        else none := rfl
  have hmax : (process_data rest menu).stats.max_foie_price
      = if (foie_prices menu).length > 0 then some (pyRound 2 (listMax (foie_prices menu)))
        else none := rfl
  by_cases hl : foie_prices menu = []
  · constructor
    · constructor
      · intro _
        exact hnil.mp hl
      · intro _
        simp [havg, hmin, hmax, hl]
    · intro hex
      rcases hex with ⟨m, hm, hp⟩
      exact absurd (hnil.mp hl m hm) hp
  · have hlen : (foie_prices menu).length > 0 := List.length_pos.2 hl
    constructor
    · simp only [havg, hmin, hmax, hlen, if_pos]
      constructor
      · rintro ⟨h, -, -⟩
        exact absurd h (by simp)
      · intro hall
        exact absurd (hnil.mpr hall) hl
    · intro _
      simp [havg, hmin, hmax, hlen]

/-- Witness for C4 at a table whose foie items include a priced one. -/
theorem foie_price_stats_spec_witness :
    (∃ m ∈ foie_items [mrow1, mrow2, mrow3], m.price ≠ none) ∧
    (process_data [rrow1] [mrow1, mrow2, mrow3]).stats.avg_foie_price
      = some (pyRound 2 (listMean (foie_prices [mrow1, mrow2, mrow3]))) :=
  ⟨⟨mrow1, by decide, by decide⟩,
   ((foie_price_stats_spec [rrow1] [mrow1, mrow2, mrow3]).2
      ⟨mrow1, by decide, by decide⟩).1⟩

/-- C1 counterexample: with no restaurant rows and a single foie-gras
menu row, `process_data` reports `restaurants_with_foie = 1` but
`total_restaurants = 0`, so the claimed numerator-in-denominator bound
fails as stated. -/
theorem ratio_invariant_counterexample :
    ¬ ((process_data [] [mrow1]).stats.restaurants_with_foie
        ≤ (process_data [] [mrow1]).stats.total_restaurants) := by
  decide

/-- C1 (amended): `total_foie_gras_items ≤ total_menu_items` and the
per-state and per-band with-foie counts are bounded by the group totals,
unconditionally; `restaurants_with_foie ≤ total_restaurants` holds
whenever every foie item's `restaurant_id` occurs among the restaurant
rows' ids (the menu table alone determines the numerator, so without
that referential integrity the bound can fail). -/
theorem process_data_ratio_invariants (rest : List RestaurantRow) (menu : List MenuRow) :
    (process_data rest menu).stats.total_foie_gras_items
      ≤ (process_data rest menu).stats.total_menu_items ∧
    (∀ e ∈ (process_data rest menu).states,
      e.restaurants_with_foie ≤ e.restaurant_count) ∧
    (∀ b te, (b, te) ∈ (process_data rest menu).price_tier_foie →
      te.with_foie ≤ te.total) ∧
    ((∀ m ∈ menu, is_foie m = true →
        m.restaurant_id ∈ rest.map (fun r => r.restaurant_id)) →
      (process_data rest menu).stats.restaurants_with_foie
        ≤ (process_data rest menu).stats.total_restaurants) := by
  refine ⟨?_, ?_, ?_, ?_⟩
  · show (foie_items menu).length ≤ menu.length
    exact List.length_filter_le _ _
  · intro e he
    have he' : e ∈ state_data rest menu := he
    rw [state_data, List.mem_map] at he'
    rcases he' with ⟨b, hb, rfl⟩
    rw [(List.mergeSort_perm _ _).mem_iff, state_data_unsorted, List.mem_map] at hb
    rcases hb with ⟨sn, -, rfl⟩
    show (_ ∩ foie_restaurant_ids menu).card ≤ _
    calc (((rest.filter (fun r => r.state = some sn.1)).map (·.restaurant_id)).toFinset
            ∩ foie_restaurant_ids menu).card
        ≤ ((rest.filter (fun r => r.state = some sn.1)).map (·.restaurant_id)).toFinset.card :=
          Finset.card_le_card Finset.inter_subset_left
      _ ≤ ((rest.filter (fun r => r.state = some sn.1)).map (·.restaurant_id)).length :=
          List.toFinset_card_le _
      _ = (rest.filter (fun r => r.state = some sn.1)).length := List.length_map _ _
  · intro b te hmem
    have hmem' : (b, te) ∈ price_tier_foie rest menu := hmem
    rw [price_tier_foie, List.mem_filterMap] at hmem'
    rcases hmem' with ⟨band, -, hband⟩
    by_cases hc : (band_ids rest band).card > 0
    · rw [if_pos hc] at hband
      rcases Option.some_inj.mp hband with ⟨rfl, rfl⟩
      exact Finset.card_le_card Finset.inter_subset_left
    · rw [if_neg hc] at hband
      exact absurd hband (by simp)
  · intro href
    show (foie_restaurant_ids menu).card ≤ rest.length
    have hsub : foie_restaurant_ids menu ⊆ (rest.map (fun r => r.restaurant_id)).toFinset := by
      intro x hx
      rw [foie_restaurant_ids, List.mem_toFinset, List.mem_map] at hx
      rcases hx with ⟨m, hm, rfl⟩
      rw [foie_items, List.mem_filter] at hm
      rw [List.mem_toFinset]
      exact href m hm.1 hm.2
    calc (foie_restaurant_ids menu).card
        ≤ (rest.map (fun r => r.restaurant_id)).toFinset.card := Finset.card_le_card hsub
      _ ≤ (rest.map (fun r => r.restaurant_id)).length := List.toFinset_card_le _
      _ = rest.length := List.length_map _ _

/-- Witness for C1 at a referentially intact concrete pair of tables. -/
theorem process_data_ratio_invariants_witness :
    (∀ m ∈ [mrow1, mrow2, mrow3], is_foie m = true →
      m.restaurant_id ∈ [rrow1, rrow2].map (fun r => r.restaurant_id)) ∧
    (process_data [rrow1, rrow2] [mrow1, mrow2, mrow3]).stats.restaurants_with_foie
      ≤ (process_data [rrow1, rrow2] [mrow1, mrow2, mrow3]).stats.total_restaurants :=
  ⟨by decide,
   (process_data_ratio_invariants [rrow1, rrow2] [mrow1, mrow2, mrow3]).2.2.2 (by decide)⟩

/-- Association lookup over entries keyed by their source element: a key
outside the key list is not found. -/
theorem lookup_keyed_filterMap_of_not_mem {β : Type} (g : String → Option β)
    (keys : List String) (b : String) (hb : b ∉ keys) :
    (keys.filterMap (fun k => (g k).map (fun v => (k, v)))).lookup b = none := by
  induction keys with
  | nil => rfl
  | cons k ks ih =>
    have hbk : b ≠ k := fun h => hb (h ▸ List.mem_cons_self k ks)
    have hbks : b ∉ ks := fun h => hb (List.mem_cons_of_mem _ h)
    cases hgk : g k with
    | none => simp [List.filterMap_cons, hgk, ih hbks]
    | some v =>
      simp [List.filterMap_cons, hgk, List.lookup_cons, beq_false_of_ne hbk, ih hbks]

/-- Association lookup over entries keyed by their source element: with
distinct keys, looking up `b ∈ keys` returns exactly `g b`. -/
theorem lookup_keyed_filterMap {β : Type} (g : String → Option β) :
    ∀ (keys : List String), keys.Nodup → ∀ b ∈ keys,
      (keys.filterMap (fun k => (g k).map (fun v => (k, v)))).lookup b = g b := by
  intro keys
  induction keys with
  | nil => intro _ b hb; cases hb
  | cons k ks ih =>
    intro hnd b hb
    have hknotin : k ∉ ks := (List.nodup_cons.mp hnd).1
    rcases List.mem_cons.mp hb with rfl | hbks
    · cases hgk : g b with
      | none =>
        simp only [List.filterMap_cons, hgk, Option.map_none]
        exact lookup_keyed_filterMap_of_not_mem g ks b hknotin
      | some v =>
        simp [List.filterMap_cons, hgk, List.lookup_cons]
    · have hbk : b ≠ k := fun h => hknotin (h ▸ hbks)
      cases hgk : g k with
      | none =>
        simp only [List.filterMap_cons, hgk, Option.map_none]
        exact ih (List.nodup_cons.mp hnd).2 b hbks
      | some v =>
        simp only [List.filterMap_cons, hgk, Option.map_some', List.lookup_cons,
          beq_false_of_ne hbk]
        exact ih (List.nodup_cons.mp hnd).2 b hbks

/-- The cardinality of an intersection of two list `toFinset`s, as a
filtered-deduplicated-list length. -/
theorem inter_card_as_filter (l l' : List String) :
    (l.toFinset ∩ l'.toFinset).card
      = (l.dedup.filter (fun i => decide (i ∈ l'))).length := by
  have h1 : (l.dedup.filter (fun i => decide (i ∈ l'))).Nodup :=
    (List.nodup_dedup l).filter _
  rw [← List.toFinset_card_of_nodup h1]
  congr 1
  ext a
  simp [List.mem_filter, List.mem_dedup]

/-- C3: each band of `tier_order` matching at least one restaurant row is
mapped by `price_tier_foie` to the count of distinct restaurant ids in
the band, the count of those ids having a foie-gras item, and the
rounded percentage `rate`; a band matching no row is omitted. -/
theorem price_tier_foie_spec (rest : List RestaurantRow) (menu : List MenuRow)
    (band : String) (hband : band ∈ tier_order) :
    ((∀ r ∈ rest, r.price_band ≠ some band) →
      ((process_data rest menu).price_tier_foie).lookup band = none) ∧
    ((∃ r ∈ rest, r.price_band = some band) →
      ((process_data rest menu).price_tier_foie).lookup band
        = (let ids := ((rest.filter (fun r => r.price_band = some band)).map
             (fun r => r.restaurant_id)).dedup
           let wf := (ids.filter (fun i =>
             decide (i ∈ (foie_items menu).map (fun m => m.restaurant_id)))).length
           some { total := ids.length, with_foie := wf,
                  rate := pyRound 1 ((wf : ℚ) / ids.length * 100) })) := by
  have hg : price_tier_foie rest menu
      = tier_order.filterMap (fun k =>
          (if (band_ids rest k).card > 0 then
              some { total := (band_ids rest k).card,
                     with_foie := ((band_ids rest k) ∩ foie_restaurant_ids menu).card,
                     rate := pyRound 1
                       ((((band_ids rest k) ∩ foie_restaurant_ids menu).card : ℚ)
                         / ((band_ids rest k).card : ℚ) * 100) }
            else (none : Option TierEntry)).map (fun v => (k, v))) := by
    rw [price_tier_foie]
    apply List.filterMap_congr
    intro k _
    by_cases hc : (band_ids rest k).card > 0
    · simp [hc]
    · simp [hc]
  have hlk : ((process_data rest menu).price_tier_foie).lookup band
      = (if (band_ids rest band).card > 0 then
          some { total := (band_ids rest band).card,
                 with_foie := ((band_ids rest band) ∩ foie_restaurant_ids menu).card,
                 rate := pyRound 1
                   ((((band_ids rest band) ∩ foie_restaurant_ids menu).card : ℚ)
                     / ((band_ids rest band).card : ℚ) * 100) }
         else none) := by
    show (price_tier_foie rest menu).lookup band = _
    rw [hg]
    exact lookup_keyed_filterMap _ tier_order (by decide) band hband
  constructor
  · intro hnone
    have hfil : rest.filter (fun r => decide (r.price_band = some band)) = [] := by
      rw [List.filter_eq_nil_iff]
      intro r hr
      simp [hnone r hr]
    have hempty : (band_ids rest band).card = 0 := by
      rw [band_ids]
      rw [show rest.filter (fun r => r.price_band = some band)
            = rest.filter (fun r => decide (r.price_band = some band)) from rfl, hfil]
      rfl
    rw [hlk, if_neg (by omega)]
  · rintro ⟨r, hr, hpb⟩
    have hmem : r.restaurant_id
        ∈ ((rest.filter (fun r => r.price_band = some band)).map
            (fun r => r.restaurant_id)).toFinset := by
      rw [List.mem_toFinset, List.mem_map]
      exact ⟨r, List.mem_filter.mpr ⟨hr, by simp [hpb]⟩, rfl⟩
    have hpos : (band_ids rest band).card > 0 :=
      Finset.card_pos.mpr ⟨r.restaurant_id, hmem⟩
    have htot : (band_ids rest band).card
        = ((rest.filter (fun r => r.price_band = some band)).map
            (fun r => r.restaurant_id)).dedup.length := List.card_toFinset _
    have hwf : ((band_ids rest band) ∩ foie_restaurant_ids menu).card
        = (((rest.filter (fun r => r.price_band = some band)).map
            (fun r => r.restaurant_id)).dedup.filter (fun i =>
              decide (i ∈ (foie_items menu).map (fun m => m.restaurant_id)))).length :=
      inter_card_as_filter _ _
    rw [hlk, if_pos hpos, htot, hwf]

/-- Witness for C3 at `$50 and over` on concrete tables. -/
theorem price_tier_foie_spec_witness :
    ("$50 and over" ∈ tier_order) ∧
    ((process_data [rrow1, rrow2] [mrow1, mrow2, mrow3]).price_tier_foie).lookup
        "$50 and over"
      = (let ids := (([rrow1, rrow2].filter
           (fun r => r.price_band = some "$50 and over")).map
           (fun r => r.restaurant_id)).dedup
         let wf := (ids.filter (fun i =>
           decide (i ∈ (foie_items [mrow1, mrow2, mrow3]).map
             (fun m => m.restaurant_id)))).length
         some { total := ids.length, with_foie := wf,
                rate := pyRound 1 ((wf : ℚ) / ids.length * 100) }) :=
  ⟨by decide,
   (price_tier_foie_spec [rrow1, rrow2] [mrow1, mrow2, mrow3] "$50 and over"
      (by decide)).2 ⟨rrow1, by decide, by decide⟩⟩

/-- `drop_duplicates` keeps a sublist of its input. -/
theorem dropDupBy_sublist {α β : Type} [DecidableEq β] (key : α → β) :
    ∀ (l : List α) (seen : List β), (dropDupBy key l seen).Sublist l := by
  intro l
  induction l with
  | nil => intro seen; simp [dropDupBy]
  | cons x xs ih =>
    intro seen
    rw [dropDupBy]
    by_cases h : key x ∈ seen
    · rw [if_pos h]
      exact (ih seen).trans (List.sublist_cons_self x xs)
    · rw [if_neg h]
      exact (ih (key x :: seen)).cons₂ x

/-- The rows kept by `drop_duplicates` have pairwise distinct keys, none
of them previously seen. -/
theorem dropDupBy_keys {α β : Type} [DecidableEq β] (key : α → β) :
    ∀ (l : List α) (seen : List β),
      ((dropDupBy key l seen).map key).Nodup ∧
      ∀ b ∈ (dropDupBy key l seen).map key, b ∉ seen := by
  intro l
  induction l with
  | nil =>
    intro seen
    exact ⟨List.nodup_nil, by simp [dropDupBy]⟩
  | cons x xs ih =>
    intro seen
    rw [dropDupBy]
    by_cases h : key x ∈ seen
    · rw [if_pos h]
      exact ih seen
    · rw [if_neg h]
      obtain ⟨hnd, hnotin⟩ := ih (key x :: seen)
      refine ⟨?_, ?_⟩
      · rw [List.map_cons, List.nodup_cons]
        exact ⟨fun hmem => (hnotin _ hmem) (List.mem_cons_self _ _), hnd⟩
      · intro b hb
        rw [List.map_cons, List.mem_cons] at hb
        rcases hb with rfl | hb
        · exact h
        · exact fun hbseen => (hnotin b hb) (List.mem_cons_of_mem _ hbseen)

/-- C10: `sample_foie_items` has at most ten entries, every entry carries
a price, and the underlying sample rows (the entries in order, before
display rendering) have pairwise distinct (lowercased title,
restaurant_id) pairs. -/
theorem sample_foie_items_invariants (rest : List RestaurantRow) (menu : List MenuRow) :
    (process_data rest menu).sample_foie_items.length ≤ 10 ∧
    (∀ e ∈ (process_data rest menu).sample_foie_items, e.price ≠ none) ∧
    ((sample_rows rest menu).map (fun m =>
      ((match m.title with | some t => pyLower t | none => "nan"),
        m.restaurant_id))).Nodup := by
  refine ⟨?_, ?_, ?_⟩
  · show ((sample_rows rest menu).map sample_entry).length ≤ 10
    rw [List.length_map]
    exact List.length_take_le 10 _
  · intro e he
    have he' : e ∈ (sample_rows rest menu).map sample_entry := he
    rw [List.mem_map] at he'
    rcases he' with ⟨m, hm, rfl⟩
    have hm' := (List.take_sublist 10 _).subset hm
    have hmdd : m ∈ dropDupBy dedup_key
        ((foie_with_details rest menu).filter (fun m => m.price.isSome)) [] := by
      rcases List.mem_append.mp hm' with h | h
      · exact (List.mem_filter.mp h).1
      · exact (List.mem_filter.mp h).1
    have hmwp : m ∈ (foie_with_details rest menu).filter (fun m => m.price.isSome) :=
      (dropDupBy_sublist dedup_key _ []).subset hmdd
    have hp : m.price.isSome := (List.mem_filter.mp hmwp).2
    show (sample_entry m).price ≠ none
    show m.price ≠ none
    exact Option.isSome_iff_ne_none.mp hp
  · have h1 : ((dropDupBy dedup_key
        ((foie_with_details rest menu).filter (fun m => m.price.isSome)) []).map
          dedup_key).Nodup :=
      (dropDupBy_keys dedup_key _ []).1
    have hperm := List.filter_append_perm has_desc
      (dropDupBy dedup_key
        ((foie_with_details rest menu).filter (fun m => m.price.isSome)) [])
    have h2 := ((hperm.map dedup_key).nodup_iff).mpr h1
    have h3 : ((sample_rows rest menu).map dedup_key).Nodup :=
      ((List.take_sublist 10 _).map dedup_key).nodup h2
    apply List.Nodup.of_map (fun p : String × String => p.1 ++ "_" ++ p.2)
    rw [List.map_map]
    exact h3

set_option maxRecDepth 4000 in
/-- Witness for C10: the price field of a concrete sample entry. -/
theorem sample_foie_items_invariants_witness :
    ({ title := some "Seared Foie Gras", description := "with brioche",
       price := some 24, restaurant := some "Chez Test", city := some "Miami",
       state := some "FL", menu_section := some "Appetizers" } : SampleEntry)
      ∈ (process_data [rrow1, rrow2] [mrow1, mrow2, mrow3]).sample_foie_items ∧
    ({ title := some "Seared Foie Gras", description := "with brioche",
       price := some 24, restaurant := some "Chez Test", city := some "Miami",
       state := some "FL", menu_section := some "Appetizers" } : SampleEntry).price
      ≠ none :=
  ⟨by decide,
   (sample_foie_items_invariants [rrow1, rrow2] [mrow1, mrow2, mrow3]).2.1 _ (by decide)⟩

/-- One OpenTable loop step keeps a completed city completed and never
searches or scrapes it. -/
theorem ot_step_preserves {α β : Type} (env : OTEnv α β) (s : OTState α β)
    (ct : (String × String) × ℕ) (c : String × String)
    (h : c ∈ s.completed ∧ c ∉ s.searches ∧ c ∉ s.scrapes) :
    c ∈ (ot_step env s ct).completed ∧ c ∉ (ot_step env s ct).searches ∧
      c ∉ (ot_step env s ct).scrapes := by
  obtain ⟨h1, h2, h3⟩ := h
  have hadd : ∀ l : List (String × String), c ∉ l → ct.1 ∉ s.completed →
      c ∉ l ++ [ct.1] := by
    intro l hl hct hc
    rcases List.mem_append.mp hc with hc | hc
    · exact hl hc
    · exact hct (List.mem_singleton.mp hc ▸ h1)
  rw [ot_step]
  split_ifs with hmem hurls hscr
  · exact ⟨h1, h2, h3⟩
  · exact ⟨h1, hadd _ h2 hmem, h3⟩
  · exact ⟨h1, hadd _ h2 hmem, hadd _ h3 hmem⟩
  · exact ⟨List.mem_append_left _ h1, hadd _ h2 hmem, hadd _ h3 hmem⟩

/-- Folding the OpenTable loop preserves the property of
`ot_step_preserves`. -/
theorem ot_fold_preserves {α β : Type} (env : OTEnv α β)
    (L : List ((String × String) × ℕ)) (s : OTState α β) (c : String × String)
    (h : c ∈ s.completed ∧ c ∉ s.searches ∧ c ∉ s.scrapes) :
    c ∈ (L.foldl (ot_step env) s).completed ∧
      c ∉ (L.foldl (ot_step env) s).searches ∧
      c ∉ (L.foldl (ot_step env) s).scrapes := by
  induction L generalizing s with
  | nil => exact h
  | cons ct L ih => exact ih _ (ot_step_preserves env s ct c h)

/-- C5: on any run of the OpenTable main loop, a city pair in the
checkpoint's `completed_cities` is never searched for nor scraped; and
`load_progress` of a missing checkpoint file is the empty progress
state. -/
theorem checkpoint_skip_and_empty_progress {α β : Type} (env : OTEnv α β)
    (p : OTProgress α β) :
    (∀ c ∈ p.completed_cities,
      c ∉ (ot_run env p).searches ∧ c ∉ (ot_run env p).scrapes) ∧
    (load_progress (none : Option (OTProgress α β))).completed_cities = [] ∧
    (load_progress (none : Option (OTProgress α β))).restaurants = [] ∧
    (load_progress (none : Option (OTProgress α β))).menu_items = [] := by
  refine ⟨?_, rfl, rfl, rfl⟩
  intro c hc
  have h := ot_fold_preserves env TARGET_COUNTS (ot_init p) c
    ⟨hc, by simp [ot_init], by simp [ot_init]⟩
  exact ⟨h.2.1, h.2.2⟩

/-- Witness for C5: the completed city of a concrete checkpoint is not
searched. -/
theorem checkpoint_skip_witness :
    ("Miami", "FL") ∈ ot_progress_w.completed_cities ∧
    ("Miami", "FL") ∉ (ot_run ot_env_triv ot_progress_w).searches :=
  ⟨by decide,
   ((checkpoint_skip_and_empty_progress ot_env_triv ot_progress_w).1 _ (by decide)).1⟩

/-- C6: after any city iteration of either scraper, each persisted output
is either untouched (skipped or failed city) or is exactly its previous
content with the newly scraped city's records appended at the end; and
the persisted outputs stay equal to the in-memory lists, so consecutive
saves only ever append. -/
theorem scraper_csv_append {α β : Type} (otenv : OTEnv α β) (s : OTState α β)
    (ddenv : DDEnv α β) (t : DDState α β) (ct : (String × String) × ℕ)
    (hs1 : s.csv_restaurants = s.restaurants) (hs2 : s.csv_menu_items = s.menu_items)
    (ht1 : t.csv_restaurants = t.restaurants) (ht2 : t.json_menus = t.menus) :
    (((ot_step otenv s ct).csv_restaurants = s.csv_restaurants ∧
      (ot_step otenv s ct).csv_menu_items = s.csv_menu_items) ∨
     ((ot_step otenv s ct).csv_restaurants
        = s.csv_restaurants
          ++ (otenv.scrape (otenv.search_urls ct.1.1 ct.1.2 ct.2) ct.1.1 ct.1.2).1 ∧
      (ot_step otenv s ct).csv_menu_items
        = s.csv_menu_items
          ++ (otenv.scrape (otenv.search_urls ct.1.1 ct.1.2 ct.2) ct.1.1 ct.1.2).2)) ∧
    ((ot_step otenv s ct).csv_restaurants = (ot_step otenv s ct).restaurants ∧
     (ot_step otenv s ct).csv_menu_items = (ot_step otenv s ct).menu_items) ∧
    (((dd_step ddenv t ct).csv_restaurants = t.csv_restaurants ∧
      (dd_step ddenv t ct).json_menus = t.json_menus) ∨
     ((dd_step ddenv t ct).csv_restaurants
        = t.csv_restaurants ++ (ddenv.scrape_city ct.1.1 ct.1.2 ct.2).map (fun x => x.1) ∧
      (dd_step ddenv t ct).json_menus
        = t.json_menus ++ (ddenv.scrape_city ct.1.1 ct.1.2 ct.2).flatMap (fun x => x.2))) ∧
    ((dd_step ddenv t ct).csv_restaurants = (dd_step ddenv t ct).restaurants ∧
     (dd_step ddenv t ct).json_menus = (dd_step ddenv t ct).menus) := by
  refine ⟨?_, ?_, ?_, ?_⟩
  · rw [ot_step]
    split_ifs with hmem hurls hscr
    · exact Or.inl ⟨rfl, rfl⟩
    · exact Or.inl ⟨rfl, rfl⟩
    · exact Or.inl ⟨rfl, rfl⟩
    · exact Or.inr ⟨by rw [hs1], by rw [hs2]⟩
  · rw [ot_step]
    split_ifs with hmem hurls hscr
    · exact ⟨hs1, hs2⟩
    · exact ⟨hs1, hs2⟩
    · exact ⟨hs1, hs2⟩
    · exact ⟨rfl, rfl⟩
  · rw [dd_step]
    split_ifs with hmem
    · exact Or.inl ⟨rfl, rfl⟩
    · exact Or.inr ⟨by rw [ht1], by rw [ht2]⟩
  · rw [dd_step]
    split_ifs with hmem
    · exact ⟨ht1, ht2⟩
    · exact ⟨rfl, rfl⟩

/-- Witness for C6 on concrete in-sync states. -/
theorem scraper_csv_append_witness :
    (ot_state_w.csv_restaurants = ot_state_w.restaurants) ∧
    (((ot_step ot_env_triv ot_state_w (("Miami", "FL"), 43)).csv_restaurants
        = ot_state_w.csv_restaurants ∧
      (ot_step ot_env_triv ot_state_w (("Miami", "FL"), 43)).csv_menu_items
        = ot_state_w.csv_menu_items) ∨
     ((ot_step ot_env_triv ot_state_w (("Miami", "FL"), 43)).csv_restaurants
        = ot_state_w.csv_restaurants
          ++ (ot_env_triv.scrape (ot_env_triv.search_urls "Miami" "FL" 43) "Miami" "FL").1 ∧
      (ot_step ot_env_triv ot_state_w (("Miami", "FL"), 43)).csv_menu_items
        = ot_state_w.csv_menu_items
          ++ (ot_env_triv.scrape (ot_env_triv.search_urls "Miami" "FL" 43) "Miami" "FL").2)) :=
  ⟨rfl,
   (scraper_csv_append ot_env_triv ot_state_w dd_env_triv dd_state_w
      (("Miami", "FL"), 43) rfl rfl rfl rfl).1⟩

/-- Serving with the aggregate already cached changes no state and
answers every request from the cache. -/
theorem app_run_cached (env : AppEnv) (d : Aggregate) :
    ∀ (rs : List Route) (acc : List Response) (s : AppState), s.cache = some d →
      rs.foldl (fun acc r =>
          let (resp, s') := serve env acc.2 r
          (acc.1 ++ [resp], s')) (acc, s)
        = (acc ++ rs.map (fun r => route_answer r d), s) := by
  intro rs
  induction rs with
  | nil =>
    intro acc s h
    simp
  | cons r rs ih =>
    intro acc s h
    rw [List.foldl_cons]
    have hserve : serve env s r = (route_answer r d, s) := by
      simp [serve, get_data, h]
    simp only [hserve]
    rw [ih (acc ++ [route_answer r d]) s h]
    simp

/-- C7: when `dashboard/data.json` exists, every request sequence is
answered from its contents — `process_data` is never called, the file is
loaded exactly once as soon as a request arrives, and each route's
response (in particular `/api/stats`) is the corresponding key of the
loaded aggregate. -/
theorem app_serves_cached_aggregate (env : AppEnv) (d : Aggregate) (rs : List Route)
    (h : env.data_json = some d) :
    (app_run env rs).2.process_calls = 0 ∧
    (app_run env rs).2.file_loads ≤ 1 ∧
    (rs ≠ [] → (app_run env rs).2.file_loads = 1) ∧
    (app_run env rs).1 = rs.map (fun r => route_answer r d) := by
  cases rs with
  | nil =>
    exact ⟨rfl, Nat.zero_le 1, fun hc => absurd rfl hc, rfl⟩
  | cons r rs =>
    have hstep : serve env app_init r
        = (route_answer r d,
           { cache := some d, file_loads := 1, process_calls := 0 }) := by
      simp [serve, get_data, app_init, h]
    have hrun : app_run env (r :: rs)
        = (([] ++ [route_answer r d]) ++ rs.map (fun r => route_answer r d),
           { cache := some d, file_loads := 1, process_calls := 0 }) := by
      rw [app_run, List.foldl_cons,
        show serve env ([], app_init).2 r
            = (route_answer r d,
               { cache := some d, file_loads := 1, process_calls := 0 })
          from hstep]
      exact app_run_cached env d rs _ _ rfl
    rw [hrun]
    refine ⟨rfl, le_refl 1, fun _ => rfl, ?_⟩
    simp

/-- Witness for C7: one `/api/stats` request against a present
`data.json`. -/
theorem app_serves_cached_aggregate_witness :
    app_env_w.data_json = some (process_data [rrow1] [mrow1]) ∧
    (app_run app_env_w [Route.stats]).1
      = [Route.stats].map (fun r => route_answer r (process_data [rrow1] [mrow1])) ∧
    (app_run app_env_w [Route.stats]).2.process_calls = 0 :=
  ⟨rfl,
   (app_serves_cached_aggregate app_env_w (process_data [rrow1] [mrow1])
      [Route.stats] rfl).2.2.2,
   (app_serves_cached_aggregate app_env_w (process_data [rrow1] [mrow1])
      [Route.stats] rfl).1⟩

end FoieGras
